import Mathlib

/-!
Shallow embedding of the form-state and validation engine of the
openshift-partner-labs-agents backend:

* `src/backend/app/services/validation.py` (FieldValidator, validate_field,
  validate_form_data),
* `src/backend/common/services/session_manager.py` (SessionManager),
* `src/backend/app/agents/tools.py` (agent tools, in particular submit_form),
* `src/backend/app/models/request.py` (Request model defaults).

Python values flowing through the form are modelled by the inductive type
`Value`; dictionaries by ordered association lists with Python dict update
semantics (replace in place when the key exists, append otherwise); the
wall clock and uuid generation are externalised as explicit parameters.
-/

namespace OPLA

/-- A Python value as it can occur in the form data: `None`, a `bool`,
a `str`, or an `int`. -/
inductive Value where
  | none : Value
  | bool : Bool → Value
  | str : String → Value
  | int : Int → Value
deriving DecidableEq, Repr

/-- Python truthiness (`bool(v)`): `None` and `False` are falsy, a string is
truthy iff non-empty, an int is truthy iff non-zero. -/
def Value.isTruthy : Value → Bool
  | .none => false
  | .bool b => b
  | .str s => s ≠ ""
  | .int n => n ≠ 0

/-- An ordered string-keyed dictionary (Python `dict` with insertion order). -/
abbrev Dict (α : Type) : Type := List (String × α)

/-- `d[k]` lookup: first (and only, for dicts built by `dinsert`) binding. -/
def dlookup {κ α : Type} [DecidableEq κ] (d : List (κ × α)) (k : κ) : Option α :=
  match d with
  | [] => Option.none
  | (k', v) :: rest => if k' = k then some v else dlookup rest k

/-- Python `d[k] = v`: replace the value in place when the key is present
(keeping its position), append at the end otherwise. -/
def dinsert {κ α : Type} [DecidableEq κ] (d : List (κ × α)) (k : κ) (v : α) : List (κ × α) :=
  match d with
  | [] => [(k, v)]
  | (k', v') :: rest =>
      if k' = k then (k', v) :: rest else (k', v') :: dinsert rest k v

/-- Python `del d[k]`. -/
def ddelete {κ α : Type} [DecidableEq κ] (d : List (κ × α)) (k : κ) : List (κ × α) :=
  match d with
  | [] => []
  | (k', v') :: rest =>
      if k' = k then rest else (k', v') :: ddelete rest k

/-- Python `d.get(k)`: `None` when the key is absent. -/
def pyGet (d : Dict Value) (k : String) : Value :=
  (dlookup d k).getD Value.none

/-- Python `s.endswith(post)` (Lean core's `String.endsWith` is not kernel
reducible, so the suffix test is spelled out on the character lists). -/
def strEndsWith (s post : String) : Bool :=
  post.data.isSuffixOf s.data

/-- The whitespace characters stripped by Python's default `str.strip()`
(ASCII subset; the unicode spaces CPython also strips never occur here). -/
def isPySpace (c : Char) : Bool :=
  c = ' ' || c = '\t' || c = '\n' || c = '\r' || c = '\x0b' || c = '\x0c'

/-- Python `s.strip()` (Lean core's `String.trim` is not kernel reducible,
so stripping is spelled out on the character lists). -/
def pyStrip (s : String) : String :=
  ⟨((s.data.dropWhile isPySpace).reverse.dropWhile isPySpace).reverse⟩

/-- Membership in the character class `[a-zA-Z0-9._%+-]` (email local part). -/
def isLocalChar (c : Char) : Bool :=
  c.isAlpha || c.isDigit || c = '.' || c = '_' || c = '%' || c = '+' || c = '-'

/-- Membership in the character class `[a-zA-Z0-9.-]` (email domain part). -/
def isDomainChar (c : Char) : Bool :=
  c.isAlpha || c.isDigit || c = '.' || c = '-'

/-- Drop a single trailing newline: Python `re`'s `$` matches at the end of the
string or just before one final newline. -/
def stripFinalNewline (cs : List Char) : List Char :=
  if cs.getLast? = some '\n' then cs.dropLast else cs

/-- Match `[a-zA-Z0-9.-]+\.[a-zA-Z]{2,}` against the whole list: the
alphabetic-only TLD cannot contain a dot, so the separating `\.` must be the
last dot of the input. -/
def domainMatch (cs : List Char) : Bool :=
  match (cs.reverse.span (fun c => c ≠ '.')) with
  | (revTld, restRev) =>
    match restRev with
    | [] => false
    | _ :: revDom =>
        let tld := revTld.reverse
        let dom := revDom.reverse
        decide (dom ≠ []) && dom.all isDomainChar &&
          decide (tld.length ≥ 2) && tld.all (fun c => c.isAlpha)

/-- Match the email pattern `^[a-zA-Z0-9._%+-]+@[a-zA-Z0-9.-]+\.[a-zA-Z]{2,}$`
(none of the classes contains `@`, so the local part runs to the first `@`). -/
def emailMatch (s : String) : Bool :=
  let cs := stripFinalNewline s.data
  match cs.span (fun c => c ≠ '@') with
  | (loc, rest) =>
    match rest with
    | [] => false
    | _ :: dom => decide (loc ≠ []) && loc.all isLocalChar && domainMatch dom

/-- Match the version pattern `^4\.\d+(\.\d+)?$` (digits restricted to ASCII). -/
def versionMatch (s : String) : Bool :=
  match stripFinalNewline s.data with
  | '4' :: '.' :: rest =>
    match rest.span Char.isDigit with
    | (d1, r1) =>
      decide (d1 ≠ []) &&
        (match r1 with
         | [] => true
         | '.' :: r2 =>
           match r2.span Char.isDigit with
           | (d2, r3) => decide (d2 ≠ []) && decide (r3 = [])
         | _ => false)
  | _ => false

/-- Modelled from the spec: the runtime's IANA timezone database (the `pytz`
package, whose data ships outside this repository), abstracted to a
representative finite set of identifiers. -/
def ianaTimezones : List String :=
  ["UTC", "Etc/UTC", "America/New_York", "America/Los_Angeles",
   "America/Chicago", "Europe/London", "Europe/Paris", "Asia/Tokyo",
   "Asia/Kolkata", "Australia/Sydney", "US/Eastern", "US/Pacific"]

/-- A Python exception escaping a library call inside the validators. -/
inductive PyExc where
  | unknownTimeZoneError : String → PyExc
  | valueError : String → PyExc
deriving DecidableEq, Repr

/-- `str(e)` for the modelled exceptions. -/
def PyExc.message : PyExc → String
  | .unknownTimeZoneError s => s
  | .valueError s => s

/-- `pytz.timezone(name)`: raises `UnknownTimeZoneError` on an identifier that
is not in the database. -/
def pytz_timezone (name : String) : Except PyExc Unit :=
  if ianaTimezones.contains name then .ok () else
    .error (.unknownTimeZoneError name)

/-- Parse a fixed-width ASCII decimal of length `n`. -/
def takeDigits (n : Nat) (cs : List Char) : Option (Nat × List Char) :=
  let pre := cs.take n
  if pre.length = n && pre.all Char.isDigit then
    some (pre.foldl (fun acc c => acc * 10 + (c.toNat - 48)) 0, cs.drop n)
  else Option.none

/-- Parse `HH:MM` with `HH ≤ 23`, `MM ≤ 59`. -/
def parseHourMinute (cs : List Char) : Option (List Char) :=
  match takeDigits 2 cs with
  | some (h, ':' :: cs1) =>
    (match takeDigits 2 cs1 with
     | some (m, cs2) => if h ≤ 23 && m ≤ 59 then some cs2 else Option.none
     | _ => Option.none)
  | _ => Option.none

/-- Parse an optional `:SS` seconds part, `SS ≤ 59`. -/
def parseOptSeconds (cs : List Char) : Option (List Char) :=
  match cs with
  | ':' :: cs1 =>
    (match takeDigits 2 cs1 with
     | some (s, cs2) => if s ≤ 59 then some cs2 else Option.none
     | _ => Option.none)
  | _ => some cs

/-- Parse an optional UTC offset `+HH:MM` or `-HH:MM`. -/
def parseOptOffset (cs : List Char) : Bool :=
  match cs with
  | [] => true
  | c :: cs1 =>
    (c = '+' || c = '-') &&
      (match parseHourMinute cs1 with
       | some [] => true
       | _ => false)

/-- Modelled from the spec: ISO-8601 parsing by CPython's
`datetime.fromisoformat` (implemented in the standard library, outside this
repository), abstracted to the forms `YYYY-MM-DD`, optionally followed by
`T` or a space, `HH:MM`, optionally `:SS`, optionally a `±HH:MM` offset. -/
def isoParseOk (s : String) : Bool :=
  match takeDigits 4 s.data with
  | some (_, '-' :: cs1) =>
    (match takeDigits 2 cs1 with
     | some (mo, '-' :: cs2) =>
       (match takeDigits 2 cs2 with
        | some (d, cs3) =>
          (1 ≤ mo && mo ≤ 12 && 1 ≤ d && d ≤ 31) &&
            (match cs3 with
             | [] => true
             | sep :: cs4 =>
               (sep = 'T' || sep = ' ') &&
                 (match parseHourMinute cs4 with
                  | some cs5 =>
                    (match parseOptSeconds cs5 with
                     | some cs6 => parseOptOffset cs6
                     | _ => false)
                  | _ => false))
        | _ => false)
     | _ => false)
  | _ => false

/-- `s.replace('Z', '+00:00')` (replaces every occurrence). -/
def replaceZ (s : String) : String :=
  ⟨s.data.flatMap (fun c => if c = 'Z' then "+00:00".data else [c])⟩

/-- `datetime.fromisoformat(s)`: raises `ValueError` when `s` does not parse. -/
def datetime_fromisoformat (s : String) : Except PyExc Unit :=
  if isoParseOk s then .ok () else
    .error (.valueError ("Invalid isoformat string: " ++ s))

namespace FieldValidator

/-- `FieldValidator.ALLOWED_LEASE_DURATIONS`. -/
def ALLOWED_LEASE_DURATIONS : List String := ["1d", "2d", "1w", "2w", "1m"]

/-- `FieldValidator.ALLOWED_APPLICATION_TYPES`. -/
def ALLOWED_APPLICATION_TYPES : List String := ["workload", "infrastructure"]

/-- `FieldValidator.ALLOWED_REQUEST_TYPES`. -/
def ALLOWED_REQUEST_TYPES : List String :=
  ["general", "engineering", "rosa", "nvidia", "virtualization", "ai"]

/-- `FieldValidator.ALLOWED_CLUSTER_SIZES`. -/
def ALLOWED_CLUSTER_SIZES : List String := ["small", "medium", "large", "xl"]

/-- `FieldValidator.ALLOWED_CLOUD_PROVIDERS`. -/
def ALLOWED_CLOUD_PROVIDERS : List String := ["aws", "gcp", "azure", "ibm"]

/-- `FieldValidator.validate_email`: falsy or non-string input is invalid,
otherwise match the email regex. -/
def validate_email (v : Value) : Bool :=
  match v with
  | .str s => decide (s ≠ "") && emailMatch s
  | _ => false

/-- `FieldValidator.validate_openshift_version`. -/
def validate_openshift_version (v : Value) : Bool :=
  match v with
  | .str s => decide (s ≠ "") && versionMatch s
  | _ => false

/-- `FieldValidator.validate_timezone`: catches `UnknownTimeZoneError` from
`pytz.timezone` and converts it to `False`; any other exception propagates. -/
def validate_timezone (v : Value) : Except PyExc Bool :=
  match v with
  | .str s =>
    if s = "" then .ok false else
      match pytz_timezone s with
      | .ok _ => .ok true
      | .error (.unknownTimeZoneError _) => .ok false
      | .error e => .error e
  | _ => .ok false

/-- `FieldValidator.validate_lease_duration`: `duration in ALLOWED_LEASE_DURATIONS`. -/
def validate_lease_duration (v : Value) : Bool :=
  (ALLOWED_LEASE_DURATIONS.map Value.str).contains v

/-- `FieldValidator.validate_application_type`. -/
def validate_application_type (v : Value) : Bool :=
  (ALLOWED_APPLICATION_TYPES.map Value.str).contains v

/-- `FieldValidator.validate_request_type`. -/
def validate_request_type (v : Value) : Bool :=
  (ALLOWED_REQUEST_TYPES.map Value.str).contains v

/-- `FieldValidator.validate_cluster_size`. -/
def validate_cluster_size (v : Value) : Bool :=
  (ALLOWED_CLUSTER_SIZES.map Value.str).contains v

/-- `FieldValidator.validate_cloud_provider`. -/
def validate_cloud_provider (v : Value) : Bool :=
  (ALLOWED_CLOUD_PROVIDERS.map Value.str).contains v

/-- `FieldValidator.validate_date`: catches `ValueError` from
`datetime.fromisoformat(date_str.replace('Z', '+00:00'))`; any other
exception propagates. -/
def validate_date (v : Value) : Except PyExc Bool :=
  match v with
  | .str s =>
    if s = "" then .ok false else
      match datetime_fromisoformat (replaceZ s) with
      | .ok _ => .ok true
      | .error (.valueError _) => .ok false
      | .error e => .error e
  | _ => .ok false

/-- `FieldValidator.validate_boolean`: `isinstance(value, bool)`. -/
def validate_boolean (v : Value) : Bool :=
  match v with
  | .bool _ => true
  | _ => false

/-- `FieldValidator.validate_required_string` with the default
`min_length = 1`: a string whose stripped content has length ≥ `minLength`. -/
def validate_required_string (v : Value) (minLength : Nat := 1) : Bool :=
  match v with
  | .str s => decide ((pyStrip s).length ≥ minLength)
  | _ => false

end FieldValidator

/-- Python `repr` of a list of strings, as produced by an f-string
`f"{['1d', '2d']}"`. -/
def pyListRepr (xs : List String) : String :=
  "[" ++ String.intercalate ", " (xs.map (fun s => "\u0027" ++ s ++ "\u0027")) ++ "]"

/-- The date-like field names dispatched to the date predicate. -/
def dateFields : List String := ["desired_start_date", "timestamp", "request_eval_date"]

/-- The hard-required free-text field names dispatched to the required-string
predicate. -/
def requiredStringFields : List String :=
  ["company_name", "primary_contact_name", "project_name",
   "description", "scope_of_work", "sponsor_email"]

/-- The optional free-text field names dispatched to the optional-string
branch. -/
def optionalStringFields : List String :=
  ["secondary_contact_name", "secondary_contact_email", "notes", "cluster_requirements"]

/-- The body of `validate_field` (the code inside its `try`), with any
escaping library exception made explicit in the `Except` monad. -/
def validateFieldBody (field_name : String) (value : Value) :
    Except PyExc (Bool × Option String) :=
  if strEndsWith field_name "_email" then
    (if FieldValidator.validate_email value then .ok (true, Option.none)
     else .ok (false, some ("Invalid email format for " ++ field_name)))
  else if field_name = "openshift_version" then
    (if FieldValidator.validate_openshift_version value then .ok (true, Option.none)
     else .ok (false, some "OpenShift version must be in format 4.y or 4.y.z"))
  else if field_name = "timezone" then
    (match FieldValidator.validate_timezone value with
     | .error e => .error e
     | .ok true => .ok (true, Option.none)
     | .ok false => .ok (false, some "Invalid timezone. Must be a valid IANA timezone"))
  else if field_name = "lease_duration" then
    (if FieldValidator.validate_lease_duration value then .ok (true, Option.none)
     else .ok (false, some ("Lease duration must be one of: " ++
        pyListRepr FieldValidator.ALLOWED_LEASE_DURATIONS)))
  else if field_name = "application_type" then
    (if FieldValidator.validate_application_type value then .ok (true, Option.none)
     else .ok (false, some ("Application type must be one of: " ++
        pyListRepr FieldValidator.ALLOWED_APPLICATION_TYPES)))
  else if field_name = "request_type" then
    (if FieldValidator.validate_request_type value then .ok (true, Option.none)
     else .ok (false, some ("Request type must be one of: " ++
        pyListRepr FieldValidator.ALLOWED_REQUEST_TYPES)))
  else if field_name = "cluster_size" then
    (if FieldValidator.validate_cluster_size value then .ok (true, Option.none)
     else .ok (false, some ("Cluster size must be one of: " ++
        pyListRepr FieldValidator.ALLOWED_CLUSTER_SIZES)))
  else if field_name = "cloud_provider" then
    (if FieldValidator.validate_cloud_provider value then .ok (true, Option.none)
     else .ok (false, some ("Cloud provider must be one of: " ++
        pyListRepr FieldValidator.ALLOWED_CLOUD_PROVIDERS)))
  else if field_name ∈ dateFields then
    (match FieldValidator.validate_date value with
     | .error e => .error e
     | .ok true => .ok (true, Option.none)
     | .ok false => .ok (false, some ("Invalid date format for " ++ field_name)))
  else if field_name = "virtualization" then
    (if FieldValidator.validate_boolean value then .ok (true, Option.none)
     else .ok (false, some "Virtualization must be a boolean value"))
  else if field_name ∈ requiredStringFields then
    (if FieldValidator.validate_required_string value then .ok (true, Option.none)
     else .ok (false, some (field_name ++ " is required and cannot be empty")))
  else if field_name ∈ optionalStringFields then
    (match value with
     | .none => .ok (true, Option.none)
     | .str _ => .ok (true, Option.none)
     | _ => .ok (false, some (field_name ++ " must be a string or None")))
  else .ok (true, Option.none)

/-- `validate_field`: the body above inside `try`/`except Exception`,
converting any escaping exception into a failed result with a message. -/
def validate_field (field_name : String) (value : Value) : Bool × Option String :=
  match validateFieldBody field_name value with
  | .ok r => r
  | .error e => (false, some ("Validation error: " ++ e.message))

/-- The `required_fields` list of `validate_form_data`. -/
def required_fields : List String :=
  ["company_name", "primary_contact_name", "primary_contact_email",
   "sponsor_email", "project_name", "desired_start_date", "lease_duration",
   "timezone", "openshift_version", "application_type", "request_type",
   "cluster_size", "cloud_provider", "description", "scope_of_work"]

/-- The error message emitted for an absent or falsy required field. -/
def requiredFieldMsg (f : String) : String :=
  "Required field \u0027" ++ f ++ "\u0027 is missing"

/-- The dedicated conditional error of `validate_form_data`. -/
def conditionalError : String :=
  "cluster_requirements is required when virtualization is True"

/-- Step (1) of `validate_form_data`: one "missing" error per required field
that is absent or falsy, in the order of `required_fields`. -/
def requiredErrors (form_data : Dict Value) : List String :=
  required_fields.filterMap (fun f =>
    match dlookup form_data f with
    | Option.none => some (requiredFieldMsg f)
    | some v => if v.isTruthy then Option.none else some (requiredFieldMsg f))

/-- Step (2) of `validate_form_data`: the `validate_field` failure message of
every present field, in insertion order. -/
def fieldErrors (form_data : Dict Value) : List String :=
  form_data.filterMap (fun p => (validate_field p.1 p.2).2)

/-- Step (3) of `validate_form_data`: the conditional rule
`form_data.get("virtualization") is True and not form_data.get("cluster_requirements")`. -/
def conditionalErrors (form_data : Dict Value) : List String :=
  if pyGet form_data "virtualization" = Value.bool true
      ∧ (pyGet form_data "cluster_requirements").isTruthy = false
  then [conditionalError] else []

/-- `validate_form_data`: required-field presence checks, then per-field
validation of every present field, then the conditional
virtualization/cluster_requirements rule; valid iff no error collected. -/
def validate_form_data (form_data : Dict Value) : Bool × List String :=
  let errors :=
    requiredErrors form_data ++ fieldErrors form_data ++ conditionalErrors form_data
  (errors.isEmpty, errors)

/-- `SessionData` from `session_manager.py`; wall-clock timestamps are
modelled as seconds (`Nat`). -/
structure SessionData where
  session_id : String
  user_email : String
  form_data : Dict Value
  created_at : Nat
  last_accessed : Nat
  is_active : Bool := true
deriving DecidableEq, Repr

namespace SessionManager

/-- The `_sessions` mapping of a `SessionManager` instance. -/
abbrev State := Dict SessionData

/-- `_session_expiry_hours = 24`, converted to seconds. -/
def expiryWindow : Nat := 24 * 3600

/-- `_is_session_expired`: `datetime.now() > last_accessed + timedelta(hours=24)`. -/
def is_session_expired (s : SessionData) (now : Nat) : Bool :=
  now > s.last_accessed + expiryWindow

/-- `create_session`: the generated uuid (`session_id`) and the clock (`now`)
are externalised as explicit inputs; the new session starts with an empty
form and both timestamps set to `now`. -/
def create_session (st : State) (session_id user_email : String) (now : Nat) : State :=
  dinsert st session_id
    { session_id := session_id, user_email := user_email, form_data := [],
      created_at := now, last_accessed := now }

/-- `delete_session`: removes the binding when present. -/
def delete_session (st : State) (session_id : String) : Bool × State :=
  if (dlookup st session_id).isSome then (true, ddelete st session_id)
  else (false, st)

/-- `get_session`: not-found on unknown id; an expired session found here is
deleted (via `delete_session`) and reported not-found; otherwise the session's
`last_accessed` is refreshed to `now` and the session returned. -/
def get_session (st : State) (now : Nat) (session_id : String) :
    Option SessionData × State :=
  match dlookup st session_id with
  | Option.none => (Option.none, st)
  | some s =>
    if is_session_expired s now then
      (Option.none, (delete_session st session_id).2)
    else
      let s' := { s with last_accessed := now }
      (some s', dinsert st session_id s')

/-- `update_form_data`: looks the session up through `get_session` (which
already purges an expired session and refreshes `last_accessed`), then writes
`value` under `field_name` unconditionally and refreshes `last_accessed`. -/
def update_form_data (st : State) (now : Nat) (session_id field_name : String)
    (value : Value) : Bool × State :=
  match get_session st now session_id with
  | (Option.none, st') => (false, st')
  | (some s, st') =>
    let s' := { s with form_data := dinsert s.form_data field_name value,
                       last_accessed := now }
    (true, dinsert st' session_id s')

/-- `get_form_data`: a copy of the session's form data, or an empty dict for
an unknown/expired session (aliasing is modelled separately in `RefModel`). -/
def get_form_data (st : State) (now : Nat) (session_id : String) :
    Dict Value × State :=
  match get_session st now session_id with
  | (Option.none, st') => ([], st')
  | (some s, st') => (s.form_data, st')

/-- `cleanup_expired_sessions`: collects every expired session id and deletes
them all; since dict keys are unique this amounts to keeping exactly the
unexpired bindings, and the count of removed ids is returned. -/
def cleanup_expired_sessions (st : State) (now : Nat) : Nat × State :=
  ((st.filter (fun p => is_session_expired p.2 now)).length,
   st.filter (fun p => !is_session_expired p.2 now))

end SessionManager

namespace tools

/-- The module-level `_form_data` dict of `app/agents/tools.py`. -/
def initialFormData : Dict Value :=
  [("user_email", .str ""), ("company_name", .str ""), ("contact_name", .str ""),
   ("contact_email", .str ""), ("openshift_version", .str ""),
   ("cluster_size", .str ""), ("use_case", .str ""),
   ("additional_requirements", .str ""), ("secondary_contact_name", .str ""),
   ("secondary_contact_email", .str ""), ("notes", .str "")]

/-- The `update_form_data` tool: writes the raw string value whenever the
field name already exists in `_form_data`; no validation is invoked. -/
def update_form_data (fd : Dict Value) (field value : String) :
    String × Dict Value :=
  if (dlookup fd field).isSome then
    ("✅ Successfully updated " ++ field ++ " to \u0027" ++ value ++ "\u0027",
     dinsert fd field (.str value))
  else
    ("❌ Field \u0027" ++ field ++ "\u0027 not found in form data", fd)

/-- The persisted `requests` table (each row a field map), as touched by the
tools module. -/
structure Database where
  requests : List (Dict Value)
deriving DecidableEq

/-- The constant message returned by the `submit_form` tool. -/
def submitSuccessMsg : String :=
  "✅ Form submitted successfully! Your OpenShift lab request has been received."

/-- The `submit_form` tool of `app/agents/tools.py`: its body only returns the
success string — it calls neither `validate_form_data` nor the database. -/
def submit_form (db : Database) : String × Database :=
  (submitSuccessMsg, db)

end tools

namespace RefModel

/-!
A refinement of the `SessionManager` embedding in which Python dict objects
live on an explicit heap of references, so that the aliasing behaviour of
`get_form_data` (which returns `session.form_data.copy()`, a fresh object)
can be stated: mutating the returned dict must not change the stored one.
-/

/-- `SessionData` with its `form_data` attribute as a reference into the
heap of dict objects. -/
structure RSessionData where
  session_id : String
  user_email : String
  form_ref : Nat
  created_at : Nat
  last_accessed : Nat
  is_active : Bool := true
deriving DecidableEq, Repr

/-- A `SessionManager` together with the heap of dict objects: `heap` maps a
reference to the dict's contents, `nextRef` is the next fresh reference. -/
structure RState where
  sessions : List (String × RSessionData)
  heap : List (Nat × Dict Value)
  nextRef : Nat
deriving DecidableEq, Repr

/-- Dereference a dict object. -/
def heapGet (st : RState) (r : Nat) : Dict Value :=
  (dlookup st.heap r).getD []

/-- Python `d[k] = v` through a reference: mutate the dict object `r`. -/
def dict_setitem (st : RState) (r : Nat) (k : String) (v : Value) : RState :=
  { st with heap := dinsert st.heap r (dinsert (heapGet st r) k v) }

/-- `create_session`: allocates a fresh empty dict object for the new
session's `form_data`. -/
def create_session (st : RState) (session_id user_email : String) (now : Nat) :
    RState :=
  { sessions := dinsert st.sessions session_id
      { session_id := session_id, user_email := user_email,
        form_ref := st.nextRef, created_at := now, last_accessed := now },
    heap := dinsert st.heap st.nextRef [],
    nextRef := st.nextRef + 1 }

/-- `get_session` on the reference model (same logic as
`SessionManager.get_session`; the expired session's dict object is simply
no longer referenced). -/
def get_session (st : RState) (now : Nat) (session_id : String) :
    Option RSessionData × RState :=
  match dlookup st.sessions session_id with
  | Option.none => (Option.none, st)
  | some s =>
    if now > s.last_accessed + SessionManager.expiryWindow then
      (Option.none, { st with sessions := ddelete st.sessions session_id })
    else
      let s' := { s with last_accessed := now }
      (some s', { st with sessions := dinsert st.sessions session_id s' })

/-- `update_form_data` on the reference model: writes through the session's
`form_data` reference. -/
def update_form_data (st : RState) (now : Nat) (session_id field_name : String)
    (value : Value) : Bool × RState :=
  match get_session st now session_id with
  | (Option.none, st') => (false, st')
  | (some s, st') =>
    let st'' := dict_setitem st' s.form_ref field_name value
    (true, { st'' with sessions :=
        (dinsert st''.sessions session_id { s with last_accessed := now }) })

/-- `get_form_data`: returns `session.form_data.copy()` — a freshly allocated
dict object holding a copy of the stored contents — or a fresh empty dict
(`return {}`) when the session is unknown or expired. -/
def get_form_data (st : RState) (now : Nat) (session_id : String) :
    Nat × RState :=
  match get_session st now session_id with
  | (Option.none, st') =>
    (st'.nextRef,
     { st' with
        heap := dinsert st'.heap st'.nextRef []
        nextRef := st'.nextRef + 1 })
  | (some s, st') =>
    (st'.nextRef,
     { st' with
        heap := dinsert st'.heap st'.nextRef (heapGet st' s.form_ref)
        nextRef := st'.nextRef + 1 })

/-- Well-formedness: every session's `form_data` reference was allocated
before `nextRef` (true of every state reachable by the operations above). -/
def WF (st : RState) : Prop :=
  ∀ p ∈ st.sessions, p.2.form_ref < st.nextRef

instance (st : RState) : Decidable (WF st) := by
  unfold WF; infer_instance

end RefModel

/-- A concrete fully-valid form: every required field present, individually
valid and truthy, with `virtualization` left unset. -/
def validFormData : Dict Value :=
  [("company_name", .str "Acme Corp"),
   ("primary_contact_name", .str "Jane Doe"),
   ("primary_contact_email", .str "jane@acme.com"),
   ("sponsor_email", .str "sponsor@redhat.com"),
   ("project_name", .str "Lab Project"),
   ("desired_start_date", .str "2025-11-01"),
   ("lease_duration", .str "1w"),
   ("timezone", .str "UTC"),
   ("openshift_version", .str "4.16"),
   ("application_type", .str "workload"),
   ("request_type", .str "general"),
   ("cluster_size", .str "small"),
   ("cloud_provider", .str "aws"),
   ("description", .str "Validate partner workloads"),
   ("scope_of_work", .str "Install and test")]

/-! ### Dictionary lemmas -/

theorem dlookup_dinsert_self {κ α : Type} [DecidableEq κ] (d : List (κ × α))
    (k : κ) (v : α) : dlookup (dinsert d k v) k = some v := by
  induction d with
  | nil => simp [dinsert, dlookup]
  | cons p rest ih =>
    obtain ⟨k', v'⟩ := p
    by_cases h : k' = k
    · simp [dinsert, h, dlookup]
    · simp [dinsert, h, dlookup, ih]

theorem dlookup_dinsert_ne {κ α : Type} [DecidableEq κ] (d : List (κ × α))
    (k k' : κ) (v : α) (h : k ≠ k') :
    dlookup (dinsert d k v) k' = dlookup d k' := by
  induction d with
  | nil => simp [dinsert, dlookup, h]
  | cons p rest ih =>
    obtain ⟨k₀, v₀⟩ := p
    by_cases h0 : k₀ = k
    · subst h0; simp [dinsert, dlookup, h]
    · simp [dinsert, h0, dlookup, ih]

theorem dinsert_dinsert {κ α : Type} [DecidableEq κ] (d : List (κ × α))
    (k : κ) (v w : α) : dinsert (dinsert d k v) k w = dinsert d k w := by
  induction d with
  | nil => simp [dinsert]
  | cons p rest ih =>
    obtain ⟨k', v'⟩ := p
    by_cases h : k' = k
    · simp [dinsert, h]
    · simp [dinsert, h, ih]

theorem dlookup_eq_none_of_not_mem {κ α : Type} [DecidableEq κ]
    (d : List (κ × α)) (k : κ) (h : k ∉ d.map Prod.fst) :
    dlookup d k = Option.none := by
  induction d with
  | nil => simp [dlookup]
  | cons p rest ih =>
    obtain ⟨k', v'⟩ := p
    simp only [List.map_cons, List.mem_cons, not_or] at h
    have hk : k' ≠ k := fun hk => h.1 hk.symm
    simp [dlookup, hk, ih h.2]

theorem dlookup_ddelete_self {κ α : Type} [DecidableEq κ] (d : List (κ × α))
    (k : κ) (h : (d.map Prod.fst).Nodup) :
    dlookup (ddelete d k) k = Option.none := by
  induction d with
  | nil => simp [ddelete, dlookup]
  | cons p rest ih =>
    obtain ⟨k', v'⟩ := p
    simp only [List.map_cons, List.nodup_cons] at h
    by_cases hk : k' = k
    · subst hk
      simp only [ddelete, if_pos rfl]
      exact dlookup_eq_none_of_not_mem rest k' h.1
    · simp [ddelete, hk, dlookup, ih h.2]

theorem dlookup_filter_of_keep {κ α : Type} [DecidableEq κ]
    (p : κ × α → Bool) (d : List (κ × α)) (k : κ) (v : α)
    (hl : dlookup d k = some v) (hp : p (k, v) = true) :
    dlookup (d.filter p) k = some v := by
  induction d with
  | nil => simp [dlookup] at hl
  | cons q rest ih =>
    obtain ⟨k', v'⟩ := q
    by_cases hk : k' = k
    · subst hk
      simp only [dlookup, if_pos, Option.some.injEq] at hl
      subst hl
      simp [List.filter, hp, dlookup]
    · simp only [dlookup, if_neg hk] at hl
      by_cases hq : p (k', v') = true
      · simp [List.filter, hq, dlookup, hk, ih hl]
      · simp only [List.filter, Bool.not_eq_true] at hq ⊢
        rw [hq]
        exact ih hl

theorem dlookup_filter_of_drop {κ α : Type} [DecidableEq κ]
    (p : κ × α → Bool) (d : List (κ × α)) (k : κ) (v : α)
    (hnd : (d.map Prod.fst).Nodup) (hl : dlookup d k = some v)
    (hp : p (k, v) = false) :
    dlookup (d.filter p) k = Option.none := by
  induction d with
  | nil => simp [dlookup] at hl
  | cons q rest ih =>
    obtain ⟨k', v'⟩ := q
    simp only [List.map_cons, List.nodup_cons] at hnd
    by_cases hk : k' = k
    · subst hk
      simp only [dlookup, if_pos, Option.some.injEq] at hl
      subst hl
      simp only [List.filter, hp]
      apply dlookup_eq_none_of_not_mem
      intro hmem
      apply hnd.1
      obtain ⟨q, hq, hfst⟩ := List.mem_map.mp hmem
      exact hfst ▸ List.mem_map_of_mem Prod.fst (List.mem_of_mem_filter hq)
    · simp only [dlookup, if_neg hk] at hl
      by_cases hq : p (k', v') = true
      · simp [List.filter, hq, dlookup, hk, ih hnd.2 hl]
      · simp only [List.filter, Bool.not_eq_true] at hq ⊢
        rw [hq]
        exact ih hnd.2 hl

theorem mem_of_dlookup_eq_some {κ α : Type} [DecidableEq κ]
    {d : List (κ × α)} {k : κ} {w : α} (h : dlookup d k = some w) :
    (k, w) ∈ d := by
  induction d with
  | nil => simp [dlookup] at h
  | cons q rest ih =>
    obtain ⟨k', v'⟩ := q
    by_cases hk : k' = k
    · subst hk
      simp only [dlookup, if_pos, Option.some.injEq] at h
      subst h
      exact List.mem_cons_self _ _
    · simp only [dlookup, if_neg hk] at h
      exact List.mem_cons_of_mem _ (ih h)

/-! ### String lemmas -/

theorem string_append_ne_of_head (p s t : String) (c c' : Char)
    (hp : p.data.head? = some c) (ht : t.data.head? = some c') (hne : c ≠ c') :
    p ++ s ≠ t := by
  intro h
  apply hne
  have h2 := congrArg (fun x : String => x.data.head?) h
  simp only [String.data_append, List.head?_append] at h2
  rw [hp] at h2
  rw [ht] at h2
  simpa using h2

/-! ### Error-message disjointness: nothing but the conditional rule ever
produces the dedicated conditional error string. -/

theorem requiredFieldMsg_ne_conditionalError (f : String) :
    requiredFieldMsg f ≠ conditionalError := by
  unfold requiredFieldMsg conditionalError
  rw [String.append_assoc]
  exact string_append_ne_of_head _ _ _ 'R' 'c' rfl rfl (by decide)

theorem validate_timezone_isOk (v : Value) :
    ∃ b, FieldValidator.validate_timezone v = .ok b := by
  unfold FieldValidator.validate_timezone pytz_timezone
  cases v with
  | str s =>
    dsimp only
    by_cases hs : s = ""
    · exact ⟨false, by rw [if_pos hs]⟩
    · rw [if_neg hs]
      by_cases hc : ianaTimezones.contains s = true
      · exact ⟨true, by rw [if_pos hc]⟩
      · exact ⟨false, by rw [if_neg hc]⟩
  | none => exact ⟨false, rfl⟩
  | bool b => exact ⟨false, rfl⟩
  | int n => exact ⟨false, rfl⟩

theorem validate_date_isOk (v : Value) :
    ∃ b, FieldValidator.validate_date v = .ok b := by
  unfold FieldValidator.validate_date datetime_fromisoformat
  cases v with
  | str s =>
    dsimp only
    by_cases hs : s = ""
    · exact ⟨false, by rw [if_pos hs]⟩
    · rw [if_neg hs]
      by_cases hp : isoParseOk (replaceZ s) = true
      · exact ⟨true, by rw [if_pos hp]⟩
      · exact ⟨false, by rw [if_neg hp]⟩
  | none => exact ⟨false, rfl⟩
  | bool b => exact ⟨false, rfl⟩
  | int n => exact ⟨false, rfl⟩

theorem requiredStringMsg_ne (f : String) (hf : f ∈ requiredStringFields) :
    (f ++ " is required and cannot be empty") ≠ conditionalError := by
  fin_cases hf <;> decide

theorem optionalStringMsg_ne (f : String) (hf : f ∈ optionalStringFields) :
    (f ++ " must be a string or None") ≠ conditionalError := by
  fin_cases hf <;> decide

/-- Catalog of the results of the `validate_field` body: it never raises, and
a failing result carries a message that is never the conditional error. -/
theorem validateFieldBody_cases (f : String) (v : Value) :
    validateFieldBody f v = .ok (true, Option.none) ∨
    ∃ m, validateFieldBody f v = .ok (false, some m) ∧ m ≠ conditionalError := by
  unfold validateFieldBody
  by_cases c1 : strEndsWith f "_email" = true
  · rw [if_pos c1]
    by_cases hv : FieldValidator.validate_email v = true
    · rw [if_pos hv]; left; rfl
    · rw [if_neg hv]; right
      exact ⟨_, rfl, string_append_ne_of_head _ _ _ 'I' 'c' rfl rfl (by decide)⟩
  · rw [if_neg c1]
    by_cases c2 : f = "openshift_version"
    · rw [if_pos c2]
      by_cases hv : FieldValidator.validate_openshift_version v = true
      · rw [if_pos hv]; left; rfl
      · rw [if_neg hv]; right; exact ⟨_, rfl, by decide⟩
    · rw [if_neg c2]
      by_cases c3 : f = "timezone"
      · rw [if_pos c3]
        obtain ⟨b, hb⟩ := validate_timezone_isOk v
        rw [hb]
        cases b
        · right; exact ⟨_, rfl, by decide⟩
        · left; rfl
      · rw [if_neg c3]
        by_cases c4 : f = "lease_duration"
        · rw [if_pos c4]
          by_cases hv : FieldValidator.validate_lease_duration v = true
          · rw [if_pos hv]; left; rfl
          · rw [if_neg hv]; right; exact ⟨_, rfl, by decide⟩
        · rw [if_neg c4]
          by_cases c5 : f = "application_type"
          · rw [if_pos c5]
            by_cases hv : FieldValidator.validate_application_type v = true
            · rw [if_pos hv]; left; rfl
            · rw [if_neg hv]; right; exact ⟨_, rfl, by decide⟩
          · rw [if_neg c5]
            by_cases c6 : f = "request_type"
            · rw [if_pos c6]
              by_cases hv : FieldValidator.validate_request_type v = true
              · rw [if_pos hv]; left; rfl
              · rw [if_neg hv]; right; exact ⟨_, rfl, by decide⟩
            · rw [if_neg c6]
              by_cases c7 : f = "cluster_size"
              · rw [if_pos c7]
                by_cases hv : FieldValidator.validate_cluster_size v = true
                · rw [if_pos hv]; left; rfl
                · rw [if_neg hv]; right; exact ⟨_, rfl, by decide⟩
              · rw [if_neg c7]
                by_cases c8 : f = "cloud_provider"
                · rw [if_pos c8]
                  by_cases hv : FieldValidator.validate_cloud_provider v = true
                  · rw [if_pos hv]; left; rfl
                  · rw [if_neg hv]; right; exact ⟨_, rfl, by decide⟩
                · rw [if_neg c8]
                  by_cases c9 : f ∈ dateFields
                  · rw [if_pos c9]
                    obtain ⟨b, hb⟩ := validate_date_isOk v
                    rw [hb]
                    cases b
                    · right
                      exact ⟨_, rfl,
                        string_append_ne_of_head _ _ _ 'I' 'c' rfl rfl (by decide)⟩
                    · left; rfl
                  · rw [if_neg c9]
                    by_cases c10 : f = "virtualization"
                    · rw [if_pos c10]
                      by_cases hv : FieldValidator.validate_boolean v = true
                      · rw [if_pos hv]; left; rfl
                      · rw [if_neg hv]; right; exact ⟨_, rfl, by decide⟩
                    · rw [if_neg c10]
                      by_cases c11 : f ∈ requiredStringFields
                      · rw [if_pos c11]
                        by_cases hv : FieldValidator.validate_required_string v = true
                        · rw [if_pos hv]; left; rfl
                        · rw [if_neg hv]; right
                          exact ⟨_, rfl, requiredStringMsg_ne f c11⟩
                      · rw [if_neg c11]
                        by_cases c12 : f ∈ optionalStringFields
                        · rw [if_pos c12]
                          cases v with
                          | none => left; rfl
                          | str s => left; rfl
                          | bool b => right; exact ⟨_, rfl, optionalStringMsg_ne f c12⟩
                          | int n => right; exact ⟨_, rfl, optionalStringMsg_ne f c12⟩
                        · rw [if_neg c12]; left; rfl

theorem validateFieldBody_isOk (f : String) (v : Value) :
    validateFieldBody f v = .ok (validate_field f v) := by
  rcases validateFieldBody_cases f v with h | ⟨m, h, _⟩ <;>
    · unfold validate_field
      rw [h]

theorem validate_field_ne_conditionalError (f : String) (v : Value) :
    (validate_field f v).2 ≠ some conditionalError := by
  rcases validateFieldBody_cases f v with h | ⟨m, h, hm⟩
  · unfold validate_field
    rw [h]
    simp
  · unfold validate_field
    rw [h]
    simpa using hm

theorem cond_not_mem_requiredErrors (fd : Dict Value) :
    conditionalError ∉ requiredErrors fd := by
  intro hmem
  rcases List.mem_filterMap.mp hmem with ⟨f, _, hsome⟩
  split at hsome
  · exact requiredFieldMsg_ne_conditionalError f (by simpa using hsome)
  · split at hsome
    · exact absurd hsome (by simp)
    · exact requiredFieldMsg_ne_conditionalError f (by simpa using hsome)

theorem cond_not_mem_fieldErrors (fd : Dict Value) :
    conditionalError ∉ fieldErrors fd := by
  intro hmem
  rcases List.mem_filterMap.mp hmem with ⟨p, _, hsome⟩
  exact validate_field_ne_conditionalError p.1 p.2 hsome

theorem mem_conditionalErrors (fd : Dict Value) :
    conditionalError ∈ conditionalErrors fd ↔
      (pyGet fd "virtualization" = Value.bool true ∧
       (pyGet fd "cluster_requirements").isTruthy = false) := by
  unfold conditionalErrors
  split
  · next h => simpa using h
  · next h => simpa using h

theorem validate_form_data_snd (fd : Dict Value) :
    (validate_form_data fd).2 =
      requiredErrors fd ++ fieldErrors fd ++ conditionalErrors fd := rfl

theorem cond_mem_form_errors (fd : Dict Value) :
    conditionalError ∈ (validate_form_data fd).2 ↔
      (pyGet fd "virtualization" = Value.bool true ∧
       (pyGet fd "cluster_requirements").isTruthy = false) := by
  rw [validate_form_data_snd]
  constructor
  · intro hmem
    rcases List.mem_append.mp hmem with hmem12 | hmem3
    · rcases List.mem_append.mp hmem12 with h1 | h2
      · exact absurd h1 (cond_not_mem_requiredErrors fd)
      · exact absurd h2 (cond_not_mem_fieldErrors fd)
    · exact (mem_conditionalErrors fd).mp hmem3
  · intro hcond
    exact List.mem_append_right _ ((mem_conditionalErrors fd).mpr hcond)

/-- C1: `validate_form_data` returns `ok = false` with the dedicated
conditional error in its error list exactly when `virtualization` is the
boolean `True` and `cluster_requirements` is absent or falsy; and with
`virtualization = False` the conditional error is never emitted, whatever
`cluster_requirements` holds. -/
theorem C1_conditional_rule (fd : Dict Value) :
    (((validate_form_data fd).1 = false ∧
        conditionalError ∈ (validate_form_data fd).2) ↔
      (pyGet fd "virtualization" = Value.bool true ∧
       (pyGet fd "cluster_requirements").isTruthy = false))
  ∧ (pyGet fd "virtualization" = Value.bool false →
      conditionalError ∉ (validate_form_data fd).2) := by
  constructor
  · constructor
    · rintro ⟨_, hmem⟩
      exact (cond_mem_form_errors fd).mp hmem
    · intro hcond
      have hmem := (cond_mem_form_errors fd).mpr hcond
      refine ⟨?_, hmem⟩
      have hne : (validate_form_data fd).2 ≠ [] := List.ne_nil_of_mem hmem
      show ((validate_form_data fd).2).isEmpty = false
      simpa using hne
  · intro hfalse hmem
    have := (cond_mem_form_errors fd).mp hmem
    rw [hfalse] at this
    simpa using this.1

/-- Witness for C1 at concrete inputs: with `virtualization = True` and
`cluster_requirements` absent the form is invalid and carries the conditional
error; with `virtualization = False` the conditional error is absent. -/
theorem C1_conditional_rule_witness :
    ((validate_form_data [("virtualization", Value.bool true)]).1 = false ∧
      conditionalError ∈ (validate_form_data [("virtualization", Value.bool true)]).2) ∧
    conditionalError ∉ (validate_form_data [("virtualization", Value.bool false)]).2 :=
  ⟨(C1_conditional_rule [("virtualization", Value.bool true)]).1.mpr
      ⟨by decide, by decide⟩,
   (C1_conditional_rule [("virtualization", Value.bool false)]).2 (by decide)⟩

/-- C8: for every field name and value, the body of `validate_field` (the
code inside its `try`) completes without an escaping exception, and the
`try`/`except` wrapper therefore returns exactly the body's result — the
specific exceptions the library calls can raise (`UnknownTimeZoneError`,
`ValueError`) are all caught inside the predicates and turned into failed
boolean results, so validation is total and never crashes. -/
theorem C8_validate_field_total (f : String) (v : Value) :
    validateFieldBody f v = Except.ok (validate_field f v) :=
  validateFieldBody_isOk f v

/-- C9: a field name matching none of the dispatch rules is accepted
unconditionally: `validate_field` returns `(true, none)` for every value. -/
theorem C9_unknown_field_passthrough (f : String) (v : Value)
    (h1 : strEndsWith f "_email" = false)
    (h2 : f ≠ "openshift_version") (h3 : f ≠ "timezone")
    (h4 : f ≠ "lease_duration") (h5 : f ≠ "application_type")
    (h6 : f ≠ "request_type") (h7 : f ≠ "cluster_size")
    (h8 : f ≠ "cloud_provider") (h9 : f ∉ dateFields)
    (h10 : f ≠ "virtualization") (h11 : f ∉ requiredStringFields)
    (h12 : f ∉ optionalStringFields) :
    validate_field f v = (true, Option.none) := by
  have hbody : validateFieldBody f v = .ok (true, Option.none) := by
    unfold validateFieldBody
    rw [if_neg (by simp [h1]), if_neg h2, if_neg h3, if_neg h4, if_neg h5,
        if_neg h6, if_neg h7, if_neg h8, if_neg h9, if_neg h10, if_neg h11,
        if_neg h12]
  unfold validate_field
  rw [hbody]

/-- Witness for C9: the unknown field `favorite_color` passes with an `int`
value. -/
theorem C9_unknown_field_passthrough_witness :
    validate_field "favorite_color" (Value.int 42) = (true, Option.none) :=
  C9_unknown_field_passthrough "favorite_color" (Value.int 42) (by decide)
    (by decide) (by decide) (by decide) (by decide) (by decide) (by decide)
    (by decide) (by decide) (by decide) (by decide) (by decide)

/-- Counterexample to C5 as stated: `secondary_contact_email` is in the
claimed optional free-text set, but `validate_field` rejects the value
`None` for it (the `_email` suffix rule dispatches it to the email
predicate first). -/
theorem C5_counterexample :
    (validate_field "secondary_contact_email" Value.none).1 = false ∧
    (validate_field "secondary_contact_email" Value.none).2 =
      some "Invalid email format for secondary_contact_email" := by
  decide

/-- C5 amended: for the optional free-text fields that actually reach the
optional-string branch (`secondary_contact_name`, `notes`,
`cluster_requirements`), null is valid and a non-null value is valid exactly
when string-typed; `secondary_contact_email` is instead dispatched to the
email predicate by the `_email` suffix rule. -/
theorem C5_optional_string_amended (f : String) (v : Value)
    (hf : f ∈ (["secondary_contact_name", "notes", "cluster_requirements"] :
      List String)) :
    ((validate_field f v).1 = true ↔ (v = Value.none ∨ ∃ s, v = Value.str s)) ∧
    (validate_field "secondary_contact_email" v).1 =
      FieldValidator.validate_email v := by
  constructor
  · have heval : validate_field f v =
        (match v with
         | Value.none => (true, Option.none)
         | Value.str _ => (true, Option.none)
         | _ => (false, some (f ++ " must be a string or None"))) := by
      fin_cases hf <;> cases v <;> rfl
    rw [heval]
    cases v <;> simp
  · have hbody : validateFieldBody "secondary_contact_email" v =
        (if FieldValidator.validate_email v = true then .ok (true, Option.none)
         else .ok (false, some ("Invalid email format for " ++
            "secondary_contact_email"))) := rfl
    unfold validate_field
    rw [hbody]
    by_cases hv : FieldValidator.validate_email v = true
    · rw [if_pos hv, hv]
    · rw [if_neg hv]
      rw [Bool.not_eq_true] at hv
      rw [hv]

/-- Witness for the amended C5 at `notes` with an `int` value (invalid) —
and the email-dispatch fact for `secondary_contact_email`. -/
theorem C5_optional_string_amended_witness :
    (((validate_field "notes" (Value.int 7)).1 = true ↔
        (Value.int 7 = Value.none ∨ ∃ s, Value.int 7 = Value.str s)) ∧
      (validate_field "secondary_contact_email" (Value.int 7)).1 =
        FieldValidator.validate_email (Value.int 7)) :=
  C5_optional_string_amended "notes" (Value.int 7) (by decide)

/-- Counterexample to C2 as stated: starting from a fresh session,
`update_form_data` accepts and stores a value for `sponsor_email` that fails
`validate_field` — per-field validation is not enforced at write time. -/
theorem C2_counterexample :
    (validate_field "sponsor_email" (Value.str "not-an-email")).1 = false ∧
    (SessionManager.update_form_data
        (SessionManager.create_session [] "sid-1" "user@example.com" 0)
        0 "sid-1" "sponsor_email" (Value.str "not-an-email")).1 = true ∧
    ((dlookup (SessionManager.update_form_data
        (SessionManager.create_session [] "sid-1" "user@example.com" 0)
        0 "sid-1" "sponsor_email" (Value.str "not-an-email")).2 "sid-1").map
      (fun s => dlookup s.form_data "sponsor_email")) =
      some (some (Value.str "not-an-email")) := by
  decide

/-- C2 amended: `SessionManager.update_form_data` stores any value for a
live session without consulting `validate_field`; the write succeeds and the
raw value is retrievable whether or not it passes per-field validation. -/
theorem C2_update_writes_unvalidated (st : SessionManager.State) (now : Nat)
    (sid f : String) (v : Value) (s : SessionData)
    (hs : (SessionManager.get_session st now sid).1 = some s) :
    (SessionManager.update_form_data st now sid f v).1 = true ∧
    ∃ s', dlookup (SessionManager.update_form_data st now sid f v).2 sid = some s' ∧
      dlookup s'.form_data f = some v := by
  unfold SessionManager.update_form_data
  cases hg : SessionManager.get_session st now sid with
  | mk o st' =>
    rw [hg] at hs
    dsimp only at hs
    subst hs
    dsimp only
    exact ⟨rfl, _, dlookup_dinsert_self _ _ _, dlookup_dinsert_self _ _ _⟩

/-- Witness for the amended C2: a concrete live session accepts an arbitrary
integer under `company_name`. -/
theorem C2_update_writes_unvalidated_witness :
    (SessionManager.update_form_data
        (SessionManager.create_session [] "sid-9" "u@example.com" 3)
        3 "sid-9" "company_name" (Value.int 5)).1 = true ∧
    ∃ s', dlookup (SessionManager.update_form_data
        (SessionManager.create_session [] "sid-9" "u@example.com" 3)
        3 "sid-9" "company_name" (Value.int 5)).2 "sid-9" = some s' ∧
      dlookup s'.form_data "company_name" = some (Value.int 5) :=
  C2_update_writes_unvalidated _ 3 "sid-9" "company_name" (Value.int 5)
    { session_id := "sid-9", user_email := "u@example.com", form_data := [],
      created_at := 3, last_accessed := 3, is_active := true }
    (by decide)

/-- C7: for a live session, writing the same field/value twice in succession
leaves exactly the state produced by writing it once (the second write
replaces the value with itself and refreshes `last_accessed` to the same
instant). -/
theorem C7_update_field_idempotent (st : SessionManager.State) (now : Nat)
    (sid f : String) (v : Value) (s : SessionData)
    (hs : (SessionManager.get_session st now sid).1 = some s) :
    (SessionManager.update_form_data
        (SessionManager.update_form_data st now sid f v).2 now sid f v).2 =
      (SessionManager.update_form_data st now sid f v).2 := by
  cases hl : dlookup st sid with
  | none =>
    exfalso
    unfold SessionManager.get_session at hs
    rw [hl] at hs
    simp at hs
  | some s0 =>
    by_cases hex : SessionManager.is_session_expired s0 now = true
    · exfalso
      unfold SessionManager.get_session at hs
      rw [hl] at hs
      dsimp only at hs
      rw [if_pos hex] at hs
      simp at hs
    · have hget1 : SessionManager.get_session st now sid =
          (some { s0 with last_accessed := now },
           dinsert st sid { s0 with last_accessed := now }) := by
        unfold SessionManager.get_session
        rw [hl]
        dsimp only
        rw [if_neg hex]
      have hupd1 : (SessionManager.update_form_data st now sid f v).2 =
          dinsert st sid
            { s0 with form_data := dinsert s0.form_data f v,
                      last_accessed := now } := by
        unfold SessionManager.update_form_data
        rw [hget1]
        dsimp only
        rw [dinsert_dinsert]
      rw [hupd1]
      have hl2 : dlookup
          (dinsert st sid { s0 with form_data := dinsert s0.form_data f v,
                                    last_accessed := now }) sid =
          some { s0 with form_data := dinsert s0.form_data f v,
                         last_accessed := now } :=
        dlookup_dinsert_self _ _ _
      have hex2 : ¬ SessionManager.is_session_expired
          { s0 with form_data := dinsert s0.form_data f v,
                    last_accessed := now } now = true := by
        simp [SessionManager.is_session_expired]
      have hget2 : SessionManager.get_session
          (dinsert st sid { s0 with form_data := dinsert s0.form_data f v,
                                    last_accessed := now }) now sid =
          (some { s0 with form_data := dinsert s0.form_data f v,
                          last_accessed := now },
           dinsert (dinsert st sid
              { s0 with form_data := dinsert s0.form_data f v,
                        last_accessed := now }) sid
             { s0 with form_data := dinsert s0.form_data f v,
                       last_accessed := now }) := by
        unfold SessionManager.get_session
        rw [hl2]
        dsimp only
        rw [if_neg hex2]
      unfold SessionManager.update_form_data
      rw [hget2]
      dsimp only
      rw [dinsert_dinsert, dinsert_dinsert s0.form_data f v v, dinsert_dinsert]

/-- Witness for C7: double write of `company_name` on a fresh session equals
the single write. -/
theorem C7_update_field_idempotent_witness :
    (SessionManager.update_form_data
        (SessionManager.update_form_data
          (SessionManager.create_session [] "sid-7" "u@example.com" 5)
          5 "sid-7" "company_name" (Value.str "Acme")).2
        5 "sid-7" "company_name" (Value.str "Acme")).2 =
      (SessionManager.update_form_data
        (SessionManager.create_session [] "sid-7" "u@example.com" 5)
        5 "sid-7" "company_name" (Value.str "Acme")).2 :=
  C7_update_field_idempotent _ 5 "sid-7" "company_name" (Value.str "Acme")
    { session_id := "sid-7", user_email := "u@example.com", form_data := [],
      created_at := 5, last_accessed := 5, is_active := true }
    (by decide)

/-- C6: a session whose last access lies more than the 24-hour window in the
past is reported not-found by `get_session` and is purged from the store as a
side effect, and `cleanup_expired_sessions` removes every such session; an
unexpired session survives the sweep (and `get_session` returns it with a
refreshed `last_accessed`). -/
theorem C6_session_expiry (st : SessionManager.State) (now : Nat)
    (sid : String) (s : SessionData)
    (hnd : (st.map Prod.fst).Nodup) (hl : dlookup st sid = some s) :
    (now > s.last_accessed + SessionManager.expiryWindow →
       (SessionManager.get_session st now sid).1 = Option.none ∧
       dlookup (SessionManager.get_session st now sid).2 sid = Option.none ∧
       dlookup (SessionManager.cleanup_expired_sessions st now).2 sid =
         Option.none)
  ∧ (¬ now > s.last_accessed + SessionManager.expiryWindow →
       (SessionManager.get_session st now sid).1 =
         some { s with last_accessed := now } ∧
       dlookup (SessionManager.cleanup_expired_sessions st now).2 sid =
         some s) := by
  constructor
  · intro hexp
    have hexpb : SessionManager.is_session_expired s now = true := by
      unfold SessionManager.is_session_expired
      exact decide_eq_true hexp
    have hdel : (SessionManager.get_session st now sid).2 = ddelete st sid := by
      unfold SessionManager.get_session
      rw [hl]
      dsimp only
      rw [if_pos hexpb]
      simp [SessionManager.delete_session, hl]
    refine ⟨?_, ?_, ?_⟩
    · unfold SessionManager.get_session
      rw [hl]
      dsimp only
      rw [if_pos hexpb]
    · rw [hdel]
      exact dlookup_ddelete_self st sid hnd
    · exact dlookup_filter_of_drop _ st sid s hnd hl (by rw [hexpb]; rfl)
  · intro hexp
    have hexpb : SessionManager.is_session_expired s now = false := by
      unfold SessionManager.is_session_expired
      exact decide_eq_false hexp
    have hne : ¬ SessionManager.is_session_expired s now = true := by
      rw [hexpb]
      simp
    constructor
    · unfold SessionManager.get_session
      rw [hl]
      dsimp only
      rw [if_neg hne]
    · exact dlookup_filter_of_keep _ st sid s hl (by rw [hexpb]; rfl)

/-- Witness for C6 at concrete inputs: a session last accessed at time 0 is
gone at `now = 25h` (get_session reports not-found and purges it, the sweep
removes it); at `now = 23h` the sweep retains it and `get_session` refreshes
it. -/
theorem C6_session_expiry_witness :
    ((SessionManager.get_session
        [("s1", { session_id := "s1", user_email := "u@example.com",
                  form_data := [], created_at := 0, last_accessed := 0,
                  is_active := true })] 90000 "s1").1 = Option.none ∧
     dlookup (SessionManager.get_session
        [("s1", { session_id := "s1", user_email := "u@example.com",
                  form_data := [], created_at := 0, last_accessed := 0,
                  is_active := true })] 90000 "s1").2 "s1" = Option.none ∧
     dlookup (SessionManager.cleanup_expired_sessions
        [("s1", { session_id := "s1", user_email := "u@example.com",
                  form_data := [], created_at := 0, last_accessed := 0,
                  is_active := true })] 90000).2 "s1" = Option.none) ∧
    dlookup (SessionManager.cleanup_expired_sessions
        [("s1", { session_id := "s1", user_email := "u@example.com",
                  form_data := [], created_at := 0, last_accessed := 0,
                  is_active := true })] 82800).2 "s1" =
      some { session_id := "s1", user_email := "u@example.com",
             form_data := [], created_at := 0, last_accessed := 0,
             is_active := true } :=
  ⟨(C6_session_expiry _ 90000 "s1"
      { session_id := "s1", user_email := "u@example.com", form_data := [],
        created_at := 0, last_accessed := 0, is_active := true }
      (by decide) (by decide)).1 (by decide),
   ((C6_session_expiry _ 82800 "s1"
      { session_id := "s1", user_email := "u@example.com", form_data := [],
        created_at := 0, last_accessed := 0, is_active := true }
      (by decide) (by decide)).2 (by decide)).2⟩

/-- C10: on the reference model, `get_form_data` hands back a freshly
allocated dict holding a copy of the live session's form data, so a
subsequent write through the returned reference leaves the session's stored
form data unchanged; for an unknown or expired session it returns a fresh
empty dict. -/
theorem C10_get_form_data_snapshot (st : RefModel.RState) (now : Nat)
    (sid k : String) (v : Value) (hwf : RefModel.WF st) :
    (∀ s, (RefModel.get_session st now sid).1 = some s →
       RefModel.heapGet (RefModel.get_form_data st now sid).2
           (RefModel.get_form_data st now sid).1 =
         RefModel.heapGet st s.form_ref ∧
       RefModel.heapGet
           (RefModel.dict_setitem (RefModel.get_form_data st now sid).2
             (RefModel.get_form_data st now sid).1 k v) s.form_ref =
         RefModel.heapGet st s.form_ref)
  ∧ ((RefModel.get_session st now sid).1 = Option.none →
       RefModel.heapGet (RefModel.get_form_data st now sid).2
           (RefModel.get_form_data st now sid).1 = []) := by
  cases hl : dlookup st.sessions sid with
  | none =>
    have hget : RefModel.get_session st now sid = (Option.none, st) := by
      unfold RefModel.get_session
      rw [hl]
    constructor
    · intro s hs
      rw [hget] at hs
      simp at hs
    · intro _
      have hfd : RefModel.get_form_data st now sid =
          (st.nextRef,
           { st with heap := dinsert st.heap st.nextRef []
                     nextRef := st.nextRef + 1 }) := by
        unfold RefModel.get_form_data
        rw [hget]
      rw [hfd]
      unfold RefModel.heapGet
      dsimp only
      rw [dlookup_dinsert_self]
      rfl
  | some s0 =>
    by_cases hex : now > s0.last_accessed + SessionManager.expiryWindow
    · have hget : RefModel.get_session st now sid =
          (Option.none, { st with sessions := ddelete st.sessions sid }) := by
        unfold RefModel.get_session
        rw [hl]
        dsimp only
        rw [if_pos hex]
      constructor
      · intro s hs
        rw [hget] at hs
        simp at hs
      · intro _
        have hfd : RefModel.get_form_data st now sid =
            (st.nextRef,
             { sessions := ddelete st.sessions sid,
               heap := dinsert st.heap st.nextRef [],
               nextRef := st.nextRef + 1 }) := by
          unfold RefModel.get_form_data
          rw [hget]
        rw [hfd]
        unfold RefModel.heapGet
        dsimp only
        rw [dlookup_dinsert_self]
        rfl
    · have hget : RefModel.get_session st now sid =
          (some { s0 with last_accessed := now },
           { st with sessions :=
               dinsert st.sessions sid { s0 with last_accessed := now } }) := by
        unfold RefModel.get_session
        rw [hl]
        dsimp only
        rw [if_neg hex]
      have hlt : s0.form_ref < st.nextRef :=
        hwf (sid, s0) (mem_of_dlookup_eq_some hl)
      have hne : st.nextRef ≠ s0.form_ref := fun h => absurd (h ▸ hlt) (lt_irrefl _)
      have hfd : RefModel.get_form_data st now sid =
          (st.nextRef,
           { sessions := dinsert st.sessions sid { s0 with last_accessed := now },
             heap := dinsert st.heap st.nextRef (RefModel.heapGet st s0.form_ref),
             nextRef := st.nextRef + 1 }) := by
        unfold RefModel.get_form_data
        rw [hget]
        rfl
      constructor
      · intro s hs
        rw [hget] at hs
        dsimp only at hs
        simp only [Option.some.injEq] at hs
        subst hs
        constructor
        · rw [hfd]
          unfold RefModel.heapGet
          dsimp only
          rw [dlookup_dinsert_self]
          rfl
        · rw [hfd]
          unfold RefModel.dict_setitem RefModel.heapGet
          dsimp only
          rw [dlookup_dinsert_ne _ _ _ _ hne, dlookup_dinsert_ne _ _ _ _ hne]
      · intro hnone
        rw [hget] at hnone
        simp at hnone

/-- Witness for C10: on a freshly created session, the snapshot returned by
`get_form_data` holds the stored (empty) contents, and writing
`company_name` into the snapshot leaves the stored dict unchanged. -/
theorem C10_get_form_data_snapshot_witness :
    (RefModel.heapGet
        (RefModel.get_form_data
          (RefModel.create_session ⟨[], [], 0⟩ "r1" "u@example.com" 0)
          0 "r1").2
        (RefModel.get_form_data
          (RefModel.create_session ⟨[], [], 0⟩ "r1" "u@example.com" 0)
          0 "r1").1 =
      RefModel.heapGet
        (RefModel.create_session ⟨[], [], 0⟩ "r1" "u@example.com" 0) 0) ∧
    (RefModel.heapGet
        (RefModel.dict_setitem
          (RefModel.get_form_data
            (RefModel.create_session ⟨[], [], 0⟩ "r1" "u@example.com" 0)
            0 "r1").2
          (RefModel.get_form_data
            (RefModel.create_session ⟨[], [], 0⟩ "r1" "u@example.com" 0)
            0 "r1").1 "company_name" (Value.str "Acme")) 0 =
      RefModel.heapGet
        (RefModel.create_session ⟨[], [], 0⟩ "r1" "u@example.com" 0) 0) :=
  (C10_get_form_data_snapshot
      (RefModel.create_session ⟨[], [], 0⟩ "r1" "u@example.com" 0)
      0 "r1" "company_name" (Value.str "Acme") (by decide)).1
    { session_id := "r1", user_email := "u@example.com", form_ref := 0,
      created_at := 0, last_accessed := 0, is_active := true }
    (by decide)

/-- C3 on the code as it stands: `submit_form` in `app/agents/tools.py` does
not re-run whole-form validation and performs no write — it returns the
fixed success string and leaves the database untouched even though
`validate_form_data` rejects the empty form with a non-empty error list. -/
theorem C3_submit_ignores_validation :
    (validate_form_data []).1 = false ∧
    (validate_form_data []).2 ≠ [] ∧
    ∀ db : tools.Database, tools.submit_form db = (tools.submitSuccessMsg, db) :=
  ⟨by decide, by decide, fun _ => rfl⟩

/-- C4 on the code as it stands: even for a fully valid form, `submit_form`
creates no `Request` row — the `requests` table is unchanged and only the
constant success message is returned. -/
theorem C4_submit_creates_no_request :
    (validate_form_data validFormData).1 = true ∧
    (validate_form_data validFormData).2 = [] ∧
    ∀ db : tools.Database,
      tools.submit_form db = (tools.submitSuccessMsg, db) ∧
      (tools.submit_form db).2.requests = db.requests :=
  ⟨by decide, by decide, fun _ => ⟨rfl, rfl⟩⟩

end OPLA

